import Mathlib

/-!
Shallow embedding of `lambda_function.py` (Paper-Patrol): an arXiv
paper-notification pipeline.  External collaborators (the arXiv feed, the
OpenAI completion endpoint, the Slack webhook) are modelled as explicit
function parameters; the Python code translated here is everything else:
feed filtering, prompt construction, JSON decoding of the model reply,
routing, Slack-block formatting, webhook dispatch, the orchestrating `run`
loop and the `lambda_handler` entry point.
-/

namespace PaperPatrol

/-- A JSON scalar value as produced by the model reply: JSON `null` or a
JSON string.  (The pipeline's prompt asks the model for an object whose
values are strings or null.) -/
inductive JVal where
  | null
  | str (s : String)
deriving Repr, DecidableEq

/-- A Python dict decoded from a JSON object: association list of keys to
values, in insertion order, without duplicate keys. -/
abbrev JObj := List (String × JVal)

/-- A top-level decoded JSON document: either a scalar or an object. -/
inductive JTop where
  | val (v : JVal)
  | obj (o : JObj)
deriving Repr, DecidableEq

/-- Python exceptions that the translated code can raise.
`jsonDecodeError` is `json.JSONDecodeError` and carries the raw document
(the exception's `doc` attribute); `keyError` is the `KeyError` raised by
`d[k]` on a missing key; `unboundLocalError` is raised when a local
variable is read before assignment; `attributeError` is raised by
`x.update(...)` on a non-dict. -/
inductive PyError where
  | jsonDecodeError (doc : String)
  | keyError (key : String)
  | unboundLocalError (name : String)
  | attributeError (msg : String)
deriving Repr, DecidableEq

/-- One `arxiv.Result` item as returned by the feed provider: the fields
the pipeline reads.  `publishedDay` is the calendar day (an ordinal) of
`result.published.date()`; `summary` is the abstract. -/
structure ArxivResult where
  title : String
  summary : String
  authors : List String
  entry_id : String
  publishedDay : Int
deriving Repr, DecidableEq

/-- The `requests.Response` object returned by `requests.post`.  Only the
status code is modelled; `requests` does not raise on a non-2xx status. -/
structure HttpResponse where
  status_code : Int
deriving Repr, DecidableEq

/-- The keyword arguments `get_gpt_reply` passes to
`openai.ChatCompletion.create` (lines 57-62 of the source). -/
structure ChatRequest where
  model : String
  max_tokens : Nat
  temperature : Nat
  messages : List (String × String)
deriving Repr, DecidableEq

/-- Outcome of the routing branch in `run` (lines 196-203): deliver to a
named Slack channel, or silently suppress the paper. -/
inductive RoutingDecision where
  | deliver (channel : String)
  | suppress
deriving Repr, DecidableEq

/-- One Slack block from `generate_slack_message_block`: the header block
(`plain_text` text taken verbatim from `paper['title']`, with its emoji
flag), a section block with a list of `mrkdwn` field texts, or a section
block with a single `mrkdwn` text. -/
inductive Block where
  | header (text : JVal) (emoji : Bool)
  | fieldsSection (fields : List String)
  | textSection (text : String)
deriving Repr, DecidableEq

/-- The value returned by `generate_slack_message_block`: a dict with the
single key `blocks` holding the block list. -/
structure Blocks where
  blocks : List Block
deriving Repr, DecidableEq

/-- One webhook POST performed by `run`: the channel argument passed to
`post_message_to_slack` and the blocks payload. -/
structure Delivery where
  channel : String
  fields : Blocks
deriving Repr, DecidableEq

/-- Observable outcome of a call to `run`: the webhook POSTs performed in
order, and the exception escaping `run`, if any (the Python function
itself returns `None`). -/
structure RunOutcome where
  posts : List Delivery
  err : Option PyError
deriving Repr, DecidableEq

/-- A Python value appearing in the `status` field of the handler result:
the source puts the boolean `False` in one branch and the string `'True'`
in the other, so the field is heterogeneous. -/
inductive PyVal where
  | bool (b : Bool)
  | str (s : String)
deriving Repr, DecidableEq

/-- The dictionary returned by `lambda_handler`: a `status` value and an
optional `error` string (present only in the exception branch). -/
structure LambdaResult where
  status : PyVal
  error : Option String
deriving Repr, DecidableEq

/-- Discriminator: is this Python value a boolean? -/
def isBoolVal : PyVal → Bool
  | .bool _ => true
  | .str _ => false

/-- Discriminator: did this computation succeed? -/
def isOkB {ε α : Type} : Except ε α → Bool
  | .ok _ => true
  | .error _ => false

/-! JSON decoding.  Models the subset of Python `json.loads` that the
pipeline exercises: documents that are JSON `null`, an escape-free JSON
string, or a flat object of such values.  Any other document is treated
as a decode failure.  Duplicate keys keep the last value, as in Python. -/

/-- Skip JSON whitespace. -/
def skipWs : List Char → List Char
  | [] => []
  | c :: cs => if c = ' ' ∨ c = '\n' ∨ c = '\t' ∨ c = '\r' then skipWs cs else c :: cs

/-- Consume the body of a JSON string up to its closing quote (the opening
quote already consumed); escape sequences are outside the modelled
subset. -/
def takeStr : List Char → Option (List Char × List Char)
  | [] => none
  | c :: cs =>
    if c = '"' then some ([], cs)
    else if c = '\\' then none
    else match takeStr cs with
      | some (s, rest) => some (c :: s, rest)
      | none => none

/-- Parse one scalar JSON value: a string or the literal `null`. -/
def parseJVal : List Char → Option (JVal × List Char)
  | [] => none
  | c :: cs =>
    if c = '"' then
      match takeStr cs with
      | some (s, rest) => some (.str (String.mk s), rest)
      | none => none
    else if c = 'n' then
      match cs with
      | 'u' :: 'l' :: 'l' :: rest => some (.null, rest)
      | _ => none
    else none

/-- Python dict assignment `d[k] = v`: replace the value in place if the
key exists, else append the pair (insertion order preserved). -/
def dictSet (o : JObj) (k : String) (v : JVal) : JObj :=
  if o.any (fun kv => kv.1 = k) then
    o.map (fun kv => if kv.1 = k then (k, v) else kv)
  else o ++ [(k, v)]

/-- Python `d.update(kvs)`: assign every pair of `kvs` in order. -/
def dictUpdate (o : JObj) (kvs : JObj) : JObj :=
  kvs.foldl (fun a kv => dictSet a kv.1 kv.2) o

/-- Parse the members of a JSON object after the opening brace, building
the dict with Python's last-key-wins semantics.  Fuelled by the input
length; each member consumes at least one character. -/
def parseMembers : Nat → List Char → JObj → Option (JObj × List Char)
  | 0, _, _ => none
  | Nat.succ fuel, cs, acc =>
    match skipWs cs with
    | '"' :: cs₁ =>
      match takeStr cs₁ with
      | some (k, cs₂) =>
        match skipWs cs₂ with
        | ':' :: cs₃ =>
          match parseJVal (skipWs cs₃) with
          | some (v, cs₄) =>
            match skipWs cs₄ with
            | ',' :: cs₅ => parseMembers fuel cs₅ (dictSet acc (String.mk k) v)
            | '\x7d' :: cs₅ => some (dictSet acc (String.mk k) v, cs₅)
            | _ => none
          | none => none
        | _ => none
      | none => none
    | _ => none

/-- Parse a top-level JSON document (whitespace already skipped). -/
def parseTop (cs : List Char) : Option (JTop × List Char) :=
  match cs with
  | '\x7b' :: cs₁ =>
    match skipWs cs₁ with
    | '\x7d' :: rest => some (.obj [], rest)
    | _ =>
      match parseMembers (cs₁.length + 1) cs₁ [] with
      | some (o, rest) => some (.obj o, rest)
      | none => none
  | _ =>
    match parseJVal cs with
    | some (v, rest) => some (.val v, rest)
    | none => none

/-- Python `json.loads` on the modelled document subset.  A failure is
`json.JSONDecodeError`, whose `doc` attribute retains the whole input
document. -/
def json_loads (s : String) : Except PyError JTop :=
  match parseTop (skipWs s.data) with
  | some (v, rest) => if skipWs rest = [] then .ok v else .error (.jsonDecodeError s)
  | none => .error (.jsonDecodeError s)

/-! JSON encoding, for the `json.dumps(fields)` body handed to
`requests.post`.  Python's default separators are used. -/

/-- Escape one character for a JSON string. -/
def escChar (c : Char) : String :=
  if c = '"' then "\\\""
  else if c = '\\' then "\\\\"
  else if c = '\n' then "\\n"
  else if c = '\t' then "\\t"
  else if c = '\r' then "\\r"
  else String.singleton c

/-- Serialize a string with surrounding quotes. -/
def dumpsStr (s : String) : String :=
  "\"" ++ String.join (s.data.map escChar) ++ "\""

/-- Serialize a scalar value. -/
def dumpsJVal : JVal → String
  | .null => "null"
  | .str s => dumpsStr s

/-- Serialize a Python boolean. -/
def dumpsBool (b : Bool) : String := if b then "true" else "false"

/-- Serialize one field dict `{"type": "mrkdwn", "text": ...}`. -/
def dumpsField (t : String) : String :=
  "\x7b\"type\": \"mrkdwn\", \"text\": " ++ dumpsStr t ++ "\x7d"

/-- Serialize one block dict of the Slack message. -/
def dumpsBlock : Block → String
  | .header t e =>
    "\x7b\"type\": \"header\", \"text\": \x7b\"type\": \"plain_text\", \"text\": "
      ++ dumpsJVal t ++ ", \"emoji\": " ++ dumpsBool e ++ "\x7d\x7d"
  | .fieldsSection fs =>
    "\x7b\"type\": \"section\", \"fields\": [" ++
      String.intercalate ", " (fs.map dumpsField) ++ "]\x7d"
  | .textSection t =>
    "\x7b\"type\": \"section\", \"text\": \x7b\"type\": \"mrkdwn\", \"text\": "
      ++ dumpsStr t ++ "\x7d\x7d"

/-- Python `json.dumps` on the blocks dict. -/
def json_dumps (fields : Blocks) : String :=
  "\x7b\"blocks\": [" ++ String.intercalate ", " (fields.blocks.map dumpsBlock) ++ "]\x7d"

/-! Python runtime conversions. -/

/-- Python `str()` / f-string conversion of a decoded JSON scalar:
`None` renders as the literal string `None`, a string renders as
itself. -/
def pyStr : JVal → String
  | .null => "None"
  | .str s => s

/-- The Python type name of a decoded scalar, as used in error
messages. -/
def pyTypeName : JVal → String
  | .null => "NoneType"
  | .str _ => "str"

/-- The `AttributeError` message for `x.update(...)` on a non-dict. -/
def pyAttrMsg (v : JVal) : String :=
  "'" ++ pyTypeName v ++ "' object has no attribute 'update'"

/-- Python `str(e)` for each modelled exception.  `JSONDecodeError`'s
message reports the failure kind, not the document (positions are not
tracked in this model); `KeyError` renders as the quoted key. -/
def pyErrMsg : PyError → String
  | .jsonDecodeError _ => "Expecting value"
  | .keyError k => "'" ++ k ++ "'"
  | .unboundLocalError n =>
    "local variable '" ++ n ++ "' referenced before assignment"
  | .attributeError m => m

/-- Python `d[k]`: the value at the key, or `KeyError` when absent. -/
def getItem (o : JObj) (k : String) : Except PyError JVal :=
  match o.find? (fun kv => kv.1 = k) with
  | some kv => .ok kv.2
  | none => .error (.keyError k)

/-- Python `v == s` between a decoded JSON scalar and a string literal:
`None == s` is `False`, strings compare by content. -/
def jeqStr (v : JVal) (s : String) : Bool :=
  match v with
  | .null => false
  | .str t => t = s

/-- View of a decoded scalar as an optional string (used to state the
spec's decision table, where a field is a string or absent/null). -/
def toOptStr : JVal → Option String
  | .null => none
  | .str s => some s

/-! Feed Selector: `obtain_latest_papers` (lines 14-45). -/

/-- The accumulating loop of `obtain_latest_papers`: iterate over the
returned results and append to `same_day_papers` each paper whose
submission date equals `latest_date`. -/
def obtain_latest_go (latest_date : Int) : List ArxivResult → List ArxivResult → List ArxivResult
  | acc, [] => acc
  | acc, paper :: rest =>
    if paper.publishedDay == latest_date then
      obtain_latest_go latest_date (acc ++ [paper]) rest
    else
      obtain_latest_go latest_date acc rest

/-- `obtain_latest_papers`: the feed provider's result list is a
parameter (the `arxiv.Search` call is external I/O); `today` is
`date.today()` as a day ordinal, and `latest_date = today - 1` is
yesterday. -/
def obtain_latest_papers (results : List ArxivResult) (today : Int) : List ArxivResult :=
  obtain_latest_go (today - 1) [] results

/-! Annotation Extractor: `get_gpt_reply` (lines 48-64) and `ask_gpt`
(lines 67-96). -/

/-- The request `get_gpt_reply` sends to the completion provider for a
given message: fixed model, `max_tokens=1000`, `temperature=0`, and a
single user message. -/
def get_gpt_reply_request (message : String) : ChatRequest :=
  { model := "gpt-3.5-turbo"
    max_tokens := 1000
    temperature := 0
    messages := [("user", message)] }

/-- `get_gpt_reply`: build the request and return the completion
provider's reply text.  The provider is the `complete` parameter. -/
def get_gpt_reply (complete : ChatRequest → String) (message : String) : String :=
  complete (get_gpt_reply_request message)

/-- The f-string prompt of `ask_gpt` (lines 75-92), with the Python
backslash line continuations applied. -/
def build_prompt (title abstract : String) : String :=
  "\n    Can you read the following title and abstract of an academic paper, and tell me the following questions?     If a question is not applicable, return null.\n    \n    - Type: Is this work mainly focused on theoretical proposals (including quantum algorithms) or actual quantum hardware experiments? Return 'Theory' or 'Experiment'.\n    - Platform: If it is an experiment result, what type of hardware is the experiment implemented with? Return 'Superconducting circuits', 'Spin qubits', 'Ion trap', 'Photonics', or 'Others:<The type of the hardware>'.\n    - Topic: If it is about a quantum algorithm, does it fall into the following categories? Return category     'Error-correction', 'Fault-tolerated quantum algorithms', 'Near-term quantum algorithms', or 'Others:<A category within two words>'.\n    - Summary: Write a one-sentence summary about this work.\n    \n    Title: "
    ++ title ++ "\n    Abstract: " ++ abstract
    ++ "\n    \n    Return your answer in JSON format.\n    "

/-- `ask_gpt`: obtain the model reply for the prompt and decode it with
`json.loads`.  There is no validation of the decoded value: no required
keys are checked and no dedicated exception type exists; the only failure
is the decoder's own `JSONDecodeError`. -/
def ask_gpt (complete : ChatRequest → String) (title abstract : String) : Except PyError JTop :=
  json_loads (get_gpt_reply complete (build_prompt title abstract))

/-! Delivery: `post_message_to_slack` (lines 99-119). -/

/-- The webhook URL assigned for channel `bottest`. -/
def webhookBottest : String := "https://hooks.slack.com/services/<your-url>"

/-- The webhook URL assigned for channel `journal_hub`. -/
def webhookJournalHub : String := "https://hooks.slack.com/services/<your-url>"

/-- The webhook URL assigned for channel `theory`. -/
def webhookTheory : String := "https://hooks.slack.com/services/<your-url>"

/-- `post_message_to_slack`: the if/elif chain assigns `web_hook` only for
the three known channel names; any other channel leaves the local variable
unassigned and `requests.post(web_hook, ...)` raises
`UnboundLocalError`.  The HTTP layer is the `net` parameter (URL and
serialized body to response). -/
def post_message_to_slack (net : String → String → HttpResponse) (fields : Blocks) (channel : String) : Except PyError HttpResponse :=
  if channel = "bottest" then .ok (net webhookBottest (json_dumps fields))
  else if channel = "journal_hub" then .ok (net webhookJournalHub (json_dumps fields))
  else if channel = "theory" then .ok (net webhookTheory (json_dumps fields))
  else .error (.unboundLocalError "web_hook")

/-! Message Formatter: `generate_slack_message_block` (lines 122-174). -/

/-- `generate_slack_message_block`: build the blocks dict.  The six
subscript lookups happen in the order the dict literal is evaluated
(title, Type, Platform, Topic, url, Summary); a missing key raises
`KeyError`.  The header holds `paper['title']` verbatim; the other
texts are f-strings, so a `None` value renders as the string `None`. -/
def generate_slack_message_block (paper : JObj) : Except PyError Blocks :=
  match getItem paper "title" with
  | .error e => .error e
  | .ok title =>
    match getItem paper "Type" with
    | .error e => .error e
    | .ok ty =>
      match getItem paper "Platform" with
      | .error e => .error e
      | .ok pl =>
        match getItem paper "Topic" with
        | .error e => .error e
        | .ok tp =>
          match getItem paper "url" with
          | .error e => .error e
          | .ok url =>
            match getItem paper "Summary" with
            | .error e => .error e
            | .ok summ =>
              .ok ⟨[Block.header title true,
                    Block.fieldsSection ["*Type:*\n" ++ pyStr ty, "*Platform:*\n" ++ pyStr pl],
                    Block.fieldsSection ["*Topic:*\n" ++ pyStr tp, "*URL:*\n" ++ pyStr url],
                    Block.textSection (pyStr summ)]⟩

/-! Routing Policy and Pipeline Orchestrator: `run` (lines 177-203). -/

/-- The routing branch of `run` (lines 196-203), on the updated
dictionary: `if ... == 'Superconducting circuits'` posts to
`journal_hub`; `elif ... == 'Experiment'` passes; `else` posts to
`theory`.  The `Platform` subscript is evaluated first and the `Type`
subscript only when the first test is false; a missing key raises
`KeyError`. -/
def route (ann : JObj) : Except PyError RoutingDecision :=
  match getItem ann "Platform" with
  | .error e => .error e
  | .ok pl =>
    if jeqStr pl "Superconducting circuits" then .ok (.deliver "journal_hub")
    else
      match getItem ann "Type" with
      | .error e => .error e
      | .ok ty =>
        if jeqStr ty "Experiment" then .ok .suppress
        else .ok (.deliver "theory")

/-- Modelled from the spec: the Routing Policy decision table of section
4.3, stated over the spec's view of an Annotation (each field a string or
absent/null), first match winning. -/
def route_spec (platform ty : Option String) : RoutingDecision :=
  if platform = some "Superconducting circuits" then .deliver "journal_hub"
  else if ty = some "Experiment" then .suppress
  else .deliver "theory"

/-- The dict passed to `annotation.update({...})` in `run`
(lines 187-192). -/
def run_updates (paper : ArxivResult) : JObj :=
  [("title", .str paper.title),
   ("authors", .str (String.intercalate ", " paper.authors)),
   ("abstract", .str paper.summary),
   ("url", .str paper.entry_id)]

/-- One iteration of the `for paper in latest_papers` loop of `run`:
extract the annotation, update it with the paper fields, route, and on a
delivery branch format the blocks and POST them.  The result is the
webhook POST performed, if any; an uncaught exception is the error case —
there is no per-paper exception handling in `run`. -/
def process_paper (complete : ChatRequest → String) (net : String → String → HttpResponse) (paper : ArxivResult) : Except PyError (Option Delivery) :=
  match ask_gpt complete paper.title paper.summary with
  | .error e => .error e
  | .ok (.val v) => .error (.attributeError (pyAttrMsg v))
  | .ok (.obj o) =>
    let ann := dictUpdate o (run_updates paper)
    match route ann with
    | .error e => .error e
    | .ok .suppress => .ok none
    | .ok (.deliver ch) =>
      match generate_slack_message_block ann with
      | .error e => .error e
      | .ok blocks =>
        match post_message_to_slack net blocks ch with
        | .error e => .error e
        | .ok _ => .ok (some ⟨ch, blocks⟩)

/-- The paper loop of `run`: papers are processed strictly in order; the
first uncaught exception aborts the loop (papers after it are never
processed), and the POSTs already performed stand. -/
def run_loop (complete : ChatRequest → String) (net : String → String → HttpResponse) : List ArxivResult → RunOutcome
  | [] => ⟨[], none⟩
  | p :: rest =>
    match process_paper complete net p with
    | .error e => ⟨[], some e⟩
    | .ok od =>
      let o := run_loop complete net rest
      ⟨od.toList ++ o.posts, o.err⟩

/-- `run` (lines 177-203): select yesterday's papers from the feed
response, then process them in order. -/
def run (complete : ChatRequest → String) (net : String → String → HttpResponse) (results : List ArxivResult) (today : Int) : RunOutcome :=
  run_loop complete net (obtain_latest_papers results today)

/-- `lambda_handler` (lines 206-220): call `run`; any exception is caught
and reported as `{"status": False, "error": str(e)}` — note the boolean.
When `run` raises nothing the handler returns `{"status": 'True'}` —
note the string literal, and no `error` key. -/
def lambda_handler (complete : ChatRequest → String) (net : String → String → HttpResponse) (results : List ArxivResult) (today : Int) : LambdaResult :=
  match (run complete net results today).err with
  | some e => ⟨.bool false, some (pyErrMsg e)⟩
  | none => ⟨.str "True", none⟩

/-- Decidable equality for `Except`, so concrete pipeline outcomes can be
evaluated by `decide`. -/
instance exceptDecEq {ε α : Type} [DecidableEq ε] [DecidableEq α] : DecidableEq (Except ε α) := fun a b =>
  match a, b with
  | .ok x, .ok y =>
    if h : x = y then isTrue (congrArg Except.ok h)
    else isFalse (fun c => h (Except.ok.inj c))
  | .ok _, .error _ => isFalse (fun c => Except.noConfusion c)
  | .error _, .ok _ => isFalse (fun c => Except.noConfusion c)
  | .error x, .error y =>
    if h : x = y then isTrue (congrArg Except.error h)
    else isFalse (fun c => h (Except.error.inj c))

/-! Concrete sample data used to evaluate the development on closed
inputs: a three-paper batch, all published yesterday relative to day 100,
where the completion provider answers well-formed JSON except on the
prompt built for the middle paper. -/

/-- Sample feed item published on day 99, classified as theory. -/
def exPaperA : ArxivResult := ⟨"A", "a", ["Alice"], "http://arxiv.org/abs/1", 99⟩

/-- Sample feed item published on day 99 whose model reply is malformed. -/
def exPaperB : ArxivResult := ⟨"B", "b", ["Bob"], "http://arxiv.org/abs/2", 99⟩

/-- Sample feed item published on day 99, never reached by the run. -/
def exPaperC : ArxivResult := ⟨"C", "c", ["Carol"], "http://arxiv.org/abs/3", 99⟩

/-- A well-formed model reply: all four taxonomy keys present. -/
def exGoodReply : String :=
  "\x7b\"Type\": \"Theory\", \"Platform\": null, \"Topic\": null, \"Summary\": \"s\"\x7d"

/-- Sample completion provider: malformed output for paper B's prompt,
well-formed output otherwise. -/
def exComplete : ChatRequest → String :=
  fun req => if req = get_gpt_reply_request (build_prompt "B" "b") then "oops" else exGoodReply

/-- Sample HTTP layer whose every response is a 500 rejection. -/
def exNet : String → String → HttpResponse := fun _ _ => ⟨500⟩

/-- The three-paper batch returned by the feed provider. -/
def exPapers : List ArxivResult := [exPaperA, exPaperB, exPaperC]

/-- An annotation dict marking a superconducting-circuits experiment. -/
def annSC : JObj :=
  [("Platform", JVal.str "Superconducting circuits"), ("Type", JVal.str "Experiment")]

/-- An annotation dict whose `Platform` and `Type` keys are both null. -/
def annBothNull : JObj := [("Platform", JVal.null), ("Type", JVal.null)]

/-- A paper dict whose four annotation fields are all null, with the
title and url the orchestrator always adds. -/
def annAllNull : JObj :=
  [("title", JVal.str "T"), ("Type", JVal.null), ("Platform", JVal.null),
   ("Topic", JVal.null), ("url", JVal.str "http://x"), ("Summary", JVal.null)]

/-- A sample blocks payload. -/
def exBlocks : Blocks := ⟨[Block.textSection "hi"]⟩

/-- The annotation dict the orchestrator builds from a model reply
containing only a `Platform` key: the update adds title, authors,
abstract and url, but `Type`, `Topic` and `Summary` stay absent. -/
def annSCNoType : JObj :=
  [("Platform", JVal.str "Superconducting circuits"),
   ("title", JVal.str "T"), ("authors", JVal.str "Alice"),
   ("abstract", JVal.str "a"), ("url", JVal.str "http://x")]

set_option maxRecDepth 100000

/-! Helper lemmas. -/

/-- The accumulating loop of `obtain_latest_papers` appends exactly the
papers matching the target date, in input order. -/
lemma obtain_latest_go_eq (d : Int) (l : List ArxivResult) :
    ∀ acc, obtain_latest_go d acc l = acc ++ l.filter (fun p => p.publishedDay == d) := by
  induction l with
  | nil => intro acc; simp [obtain_latest_go]
  | cons p rest ih =>
    intro acc
    cases h : p.publishedDay == d with
    | true => simp [obtain_latest_go, h, ih, List.filter_cons]
    | false => simp [obtain_latest_go, h, ih, List.filter_cons]

/-- Every failure of `json_loads` is a `JSONDecodeError` retaining the
whole input document. -/
lemma json_loads_error_shape (s : String) (e : PyError) (h : json_loads s = .error e) :
    e = .jsonDecodeError s := by
  unfold json_loads at h
  cases hp : parseTop (skipWs s.data) with
  | none =>
    rw [hp] at h
    exact (Except.error.inj h).symm
  | some vr =>
    obtain ⟨v, rest⟩ := vr
    rw [hp] at h
    by_cases hr : skipWs rest = []
    · simp [hr] at h
    · simp [hr] at h; exact h.symm

/-- `process_paper` does not depend on the HTTP layer: the response of
`requests.post` is bound and dropped. -/
lemma process_paper_net (complete : ChatRequest → String)
    (net₁ net₂ : String → String → HttpResponse) (p : ArxivResult) :
    process_paper complete net₁ p = process_paper complete net₂ p := by
  unfold process_paper
  cases ask_gpt complete p.title p.summary with
  | error e => rfl
  | ok t =>
    cases t with
    | val v => rfl
    | obj o =>
      simp only
      cases route (dictUpdate o (run_updates p)) with
      | error e => rfl
      | ok d =>
        cases d with
        | suppress => rfl
        | deliver ch =>
          cases generate_slack_message_block (dictUpdate o (run_updates p)) with
          | error e => rfl
          | ok blocks =>
            dsimp only
            unfold post_message_to_slack
            split_ifs <;> rfl

/-- The run loop does not depend on the HTTP layer. -/
lemma run_loop_net (complete : ChatRequest → String)
    (net₁ net₂ : String → String → HttpResponse) (l : List ArxivResult) :
    run_loop complete net₁ l = run_loop complete net₂ l := by
  induction l with
  | nil => rfl
  | cons p rest ih =>
    unfold run_loop
    rw [process_paper_net complete net₁ net₂ p, ih]

/-- If every paper of a prefix processes without an exception and the next
paper raises, the loop performs exactly the prefix's POSTs and stops with
that exception; the remaining papers are never processed. -/
lemma run_loop_append_fail (complete : ChatRequest → String)
    (net : String → String → HttpResponse) (ps : List ArxivResult) (p : ArxivResult)
    (rest : List ArxivResult) (e : PyError)
    (hok : ∀ q ∈ ps, isOkB (process_paper complete net q) = true)
    (hfail : process_paper complete net p = .error e) :
    run_loop complete net (ps ++ p :: rest) = ⟨(run_loop complete net ps).posts, some e⟩ := by
  induction ps with
  | nil =>
    simp only [List.nil_append]
    unfold run_loop
    rw [hfail]
  | cons q ps ih =>
    have hq := hok q (by simp)
    cases hpq : process_paper complete net q with
    | error e' => rw [hpq] at hq; simp [isOkB] at hq
    | ok od =>
      have hrec := ih (fun r hr => hok r (by simp [hr]))
      simp only [List.cons_append]
      unfold run_loop
      rw [hpq, hrec]

/-! Claim theorems. -/

/-- Claim C1: for every annotation whose `Platform` and `Type` fields are
present (null allowed), the routing decision of `run` follows the spec's
three-rule decision table in order with first match winning: platform
equal to 'Superconducting circuits' delivers to `journal_hub` (even when
type equals 'Experiment'), otherwise type equal to 'Experiment'
suppresses, otherwise it delivers to `theory`. -/
theorem route_follows_spec_table (ann : JObj) (pl ty : JVal)
    (hpl : getItem ann "Platform" = .ok pl) (hty : getItem ann "Type" = .ok ty) :
    route ann = .ok (route_spec (toOptStr pl) (toOptStr ty)) := by
  unfold route route_spec
  rw [hpl, hty]
  cases pl with
  | null =>
    cases ty with
    | null => simp [jeqStr, toOptStr]
    | str t => by_cases h2 : t = "Experiment" <;> simp [jeqStr, toOptStr, h2]
  | str s =>
    by_cases h : s = "Superconducting circuits"
    · simp [jeqStr, toOptStr, h]
    · cases ty with
      | null => simp [jeqStr, toOptStr, h]
      | str t =>
        by_cases h2 : t = "Experiment" <;> simp [jeqStr, toOptStr, h, h2]

/-- Claim C1 witness: a superconducting-circuits experiment routes to
`journal_hub`, never suppress. -/
theorem route_follows_spec_table_witness :
    route annSC = .ok (route_spec (toOptStr (JVal.str "Superconducting circuits"))
      (toOptStr (JVal.str "Experiment"))) ∧
    route_spec (toOptStr (JVal.str "Superconducting circuits"))
      (toOptStr (JVal.str "Experiment")) = .deliver "journal_hub" :=
  ⟨route_follows_spec_table annSC (JVal.str "Superconducting circuits")
      (JVal.str "Experiment") (by decide) (by decide),
   by decide⟩

/-- Claim C2 counterexample: in the three-paper batch where paper B's
extraction raises, the claim's expected outcome — the failure recorded per
paper, the remaining papers processed, the run-level status still success
— does not happen: only paper A's POST was performed, the exception
escapes `run`, and the handler reports status `False`. -/
theorem per_paper_failure_not_isolated_cex :
    (run exComplete exNet exPapers 100).posts.map Delivery.channel = ["theory"] ∧
    (run exComplete exNet exPapers 100).err = some (.jsonDecodeError "oops") ∧
    lambda_handler exComplete exNet exPapers 100 =
      ⟨PyVal.bool false, some "Expecting value"⟩ := by
  refine ⟨by decide, by decide, by decide⟩

/-- Claim C2 (amended): `run` has no per-paper exception handling — when
the papers before `p` process without an exception and `p`'s processing
raises, the run performs only the earlier papers' POSTs, never reaches the
papers after `p`, and the entry point reports status `False` with the
error string. -/
theorem failure_aborts_batch (complete : ChatRequest → String)
    (net : String → String → HttpResponse) (results : List ArxivResult) (today : Int)
    (ps : List ArxivResult) (p : ArxivResult) (rest : List ArxivResult) (e : PyError)
    (hsel : obtain_latest_papers results today = ps ++ p :: rest)
    (hok : ∀ q ∈ ps, isOkB (process_paper complete net q) = true)
    (hfail : process_paper complete net p = .error e) :
    run complete net results today = ⟨(run_loop complete net ps).posts, some e⟩ ∧
    lambda_handler complete net results today = ⟨PyVal.bool false, some (pyErrMsg e)⟩ := by
  have h := run_loop_append_fail complete net ps p rest e hok hfail
  constructor
  · unfold run; rw [hsel]; exact h
  · unfold lambda_handler run; rw [hsel, h]

/-- Claim C2 witness: the amended statement evaluated on the concrete
three-paper batch with a failing middle paper. -/
theorem failure_aborts_batch_witness :
    run exComplete exNet exPapers 100 =
      ⟨(run_loop exComplete exNet [exPaperA]).posts, some (.jsonDecodeError "oops")⟩ ∧
    lambda_handler exComplete exNet exPapers 100 =
      ⟨PyVal.bool false, some (pyErrMsg (.jsonDecodeError "oops"))⟩ :=
  failure_aborts_batch exComplete exNet exPapers 100 [exPaperA] exPaperB [exPaperC]
    (.jsonDecodeError "oops") (by decide) (by decide) (by decide)

/-- Claim C3 counterexample: a model reply that parses as JSON but omits
the required keys `Platform`, `Topic` and `Summary` raises nothing at all
— the extractor returns the partial object as a silent default, so no
`ClassificationError` (a type that does not exist in the code) is
raised. -/
theorem missing_keys_accepted_cex :
    ask_gpt (fun _ => "\x7b\"Type\": \"Theory\"\x7d") "t" "a" =
      .ok (.obj [("Type", JVal.str "Theory")]) := by decide

/-- Claim C3 (amended): the extractor performs no validation of the
decoded reply — a reply that parses is returned unchanged even when
required keys are missing, and the only exception it can raise is the
json module's generic `JSONDecodeError`, which retains the raw response
text as the error's document. -/
theorem extractor_error_is_json_decode (resp title abstract : String) :
    (∀ e : PyError, ask_gpt (fun _ => resp) title abstract = .error e →
      e = .jsonDecodeError resp) ∧
    (∀ v : JTop, json_loads resp = .ok v →
      ask_gpt (fun _ => resp) title abstract = .ok v) := by
  constructor
  · intro e h
    exact json_loads_error_shape resp e h
  · intro v h
    exact h

/-- Claim C3 witness: the amended statement evaluated on a non-JSON reply
(the raised error is the decode error retaining the raw text) and on a
parsed reply missing three required keys (returned unchanged). -/
theorem extractor_error_is_json_decode_witness :
    PyError.jsonDecodeError "oops" = PyError.jsonDecodeError "oops" ∧
    ask_gpt (fun _ => "\x7b\"Summary\": null\x7d") "t" "a" =
      .ok (.obj [("Summary", JVal.null)]) :=
  ⟨(extractor_error_is_json_decode "oops" "t" "a").1
      (.jsonDecodeError "oops") (by decide),
   (extractor_error_is_json_decode "\x7b\"Summary\": null\x7d" "t" "a").2
      (.obj [("Summary", JVal.null)]) (by decide)⟩

/-- Claim C4: the feed selector's output is exactly the sublist of the
provider's items whose publication day equals yesterday (today - 1); items
of other days never appear, and with no matching item the result is the
empty list, not an error. -/
theorem feed_selector_filters_target_date (results : List ArxivResult) (today : Int) :
    obtain_latest_papers results today =
      results.filter (fun p => p.publishedDay == today - 1) := by
  unfold obtain_latest_papers
  simpa using obtain_latest_go_eq (today - 1) results []

/-- Claim C5 counterexample: on an annotation without a `Platform` key the
routing code raises `KeyError` instead of returning one of the three
outcomes, so the routing branch is not total over all annotations. -/
theorem route_keyerror_on_absent_platform_cex :
    route ([] : JObj) = .error (.keyError "Platform") := by decide

/-- Claim C5 (amended): the routing branch returns exactly one of the
three outcomes for every annotation whose `Platform` and `Type` keys are
present (their values may be null); an annotation missing the `Platform`
key (or missing `Type` when the platform test fails) raises `KeyError`
instead. -/
theorem route_total_on_present_keys (ann : JObj) (pl ty : JVal)
    (hpl : getItem ann "Platform" = .ok pl) (hty : getItem ann "Type" = .ok ty) :
    route ann = .ok (.deliver "journal_hub") ∨ route ann = .ok .suppress ∨
      route ann = .ok (.deliver "theory") := by
  unfold route
  rw [hpl, hty]
  cases h1 : jeqStr pl "Superconducting circuits" with
  | true => simp [h1]
  | false =>
    cases h2 : jeqStr ty "Experiment" with
    | true => simp [h1, h2]
    | false => simp [h1, h2]

/-- Claim C5 witness: an annotation whose `Platform` and `Type` values
are both null routes to one of the three outcomes without raising. -/
theorem route_total_on_present_keys_witness :
    route annBothNull = .ok (.deliver "journal_hub") ∨ route annBothNull = .ok .suppress ∨
      route annBothNull = .ok (.deliver "theory") :=
  route_total_on_present_keys annBothNull JVal.null JVal.null (by decide) (by decide)

/-- Claim C6 counterexample: the formatter does raise on an annotation
with a missing (absent, not null) field — on the dict built from the
reply containing only `Platform`, routing passes the dict to delivery
without ever reading `Type`, and the formatter then raises
`KeyError('Type')` at its second subscript instead of rendering a
null-representation string. -/
theorem formatter_keyerror_on_absent_type_cex :
    route annSCNoType = .ok (.deliver "journal_hub") ∧
    generate_slack_message_block annSCNoType = .error (.keyError "Type") := by
  exact ⟨by decide, by decide⟩

/-- Claim C6 (amended): on every paper dict carrying the six keys the
formatter reads (values may be null), `generate_slack_message_block`
returns — it does not raise — a payload of exactly four blocks: the
header with the title, the Type/Platform field block, the Topic/URL field
block and the summary text block, a null field rendering as the string
`None`; but a dict missing one of those keys raises `KeyError`, so
formatting is not total over incomplete annotations. -/
theorem formatter_total_on_present_keys (paper : JObj) (title ty pl tp url summ : JVal)
    (h1 : getItem paper "title" = .ok title) (h2 : getItem paper "Type" = .ok ty)
    (h3 : getItem paper "Platform" = .ok pl) (h4 : getItem paper "Topic" = .ok tp)
    (h5 : getItem paper "url" = .ok url) (h6 : getItem paper "Summary" = .ok summ) :
    generate_slack_message_block paper =
      .ok ⟨[Block.header title true,
            Block.fieldsSection ["*Type:*\n" ++ pyStr ty, "*Platform:*\n" ++ pyStr pl],
            Block.fieldsSection ["*Topic:*\n" ++ pyStr tp, "*URL:*\n" ++ pyStr url],
            Block.textSection (pyStr summ)]⟩ ∧
    pyStr JVal.null = "None" := by
  constructor
  · unfold generate_slack_message_block
    rw [h1, h2, h3, h4, h5, h6]
  · rfl

/-- Claim C6 witness: the formatter evaluated on a paper dict whose four
annotation fields are all null — all four blocks present, null fields
rendered as the string `None`. -/
theorem formatter_total_on_present_keys_witness :
    generate_slack_message_block annAllNull =
      .ok ⟨[Block.header (JVal.str "T") true,
            Block.fieldsSection ["*Type:*\n" ++ pyStr JVal.null, "*Platform:*\n" ++ pyStr JVal.null],
            Block.fieldsSection ["*Topic:*\n" ++ pyStr JVal.null, "*URL:*\n" ++ pyStr (JVal.str "http://x")],
            Block.textSection (pyStr JVal.null)]⟩ ∧
    pyStr JVal.null = "None" :=
  formatter_total_on_present_keys annAllNull (JVal.str "T") JVal.null JVal.null JVal.null
    (JVal.str "http://x") JVal.null (by decide) (by decide) (by decide) (by decide)
    (by decide) (by decide)

/-- Claim C7: on a run with no unhandled exception (here: the feed
returns no papers) the entry point's `status` field is the string `True`,
not a boolean — the success branch of `lambda_handler` contradicts the
boolean-status contract that its own failure branch (boolean `False`)
follows. -/
theorem handler_success_status_is_string :
    lambda_handler (fun _ => "") (fun _ _ => ⟨200⟩) [] 0 = ⟨PyVal.str "True", none⟩ ∧
    isBoolVal (lambda_handler (fun _ => "") (fun _ _ => ⟨200⟩) [] 0).status = false := by
  exact ⟨by decide, by decide⟩

/-- Claim C8: the request `get_gpt_reply` sends to the completion
provider is a pure function of the message — fixed model, fixed
`max_tokens`, temperature zero, and the message as the single user turn —
so repeated calls on the same prompt send identical parameters. -/
theorem completion_request_deterministic (complete : ChatRequest → String) (m : String) :
    get_gpt_reply_request m =
      ⟨"gpt-3.5-turbo", 1000, 0, [("user", m)]⟩ ∧
    (get_gpt_reply_request m).temperature = 0 ∧
    get_gpt_reply complete m = complete (get_gpt_reply_request m) :=
  ⟨rfl, rfl, rfl⟩

/-- Claim C9: for every channel other than `bottest`, `journal_hub` and
`theory`, `post_message_to_slack` raises `UnboundLocalError` on the
never-assigned `web_hook` variable instead of posting anywhere. -/
theorem unknown_channel_unbound_webhook (net : String → String → HttpResponse)
    (fields : Blocks) (channel : String)
    (h1 : channel ≠ "bottest") (h2 : channel ≠ "journal_hub") (h3 : channel ≠ "theory") :
    post_message_to_slack net fields channel = .error (.unboundLocalError "web_hook") := by
  unfold post_message_to_slack
  rw [if_neg h1, if_neg h2, if_neg h3]

/-- Claim C9 witness: posting to channel `general` raises instead of
performing any POST. -/
theorem unknown_channel_unbound_webhook_witness :
    post_message_to_slack (fun _ _ => ⟨200⟩) exBlocks "general" =
      .error (.unboundLocalError "web_hook") :=
  unknown_channel_unbound_webhook (fun _ _ => ⟨200⟩) exBlocks "general"
    (by decide) (by decide) (by decide)

/-- Claim C10: the orchestrator discards the delivery provider's
response — the outcome of `run` and the entry point's result are
identical for any two HTTP layers, so a rejected (e.g. non-2xx) delivery
raises nothing, is recorded nowhere, and is indistinguishable from a
successful delivery at the public interface. -/
theorem delivery_response_ignored (complete : ChatRequest → String)
    (results : List ArxivResult) (today : Int)
    (net₁ net₂ : String → String → HttpResponse) :
    run complete net₁ results today = run complete net₂ results today ∧
    lambda_handler complete net₁ results today = lambda_handler complete net₂ results today := by
  have h : run complete net₁ results today = run complete net₂ results today := by
    unfold run; exact run_loop_net complete net₁ net₂ _
  refine ⟨h, ?_⟩
  unfold lambda_handler
  rw [h]

end PaperPatrol
